import Mathlib

/-!
Verification of the adaptive traffic-signal control loop and dashboard
components of the SIH Smart-Traffic repository.

The repository ships the signal-control kernel only as prose
(AI_TRAFFic markdown files); the React dashboard components are present
as JavaScript source.  Definitions below that embed missing kernel code
are marked `Modelled from the spec:`; the dashboard definitions are
embedded directly from the JavaScript files under `frontend/src`.
-/

namespace Traffic

/-- Modelled from the spec: the `Action` tagged variant produced by
`DecisionPolicy` and consumed by `SignalController`
(spec section 3, "Action"); the implementation is missing from the
repository sources. -/
inductive Action where
  | holdPhase : Action
  | extendGreen : Nat → Action
  | switchToPhase : Nat → Action
  | coordinateOffset : Nat → Nat → Action
deriving DecidableEq

/-- Modelled from the spec: the static per-controller configuration
(number of phases, minimum green seconds, maximum green seconds);
defaults 10 s / 60 s come from `AI_TRAFFIC_CONTROL_SYSTEM.md`,
"AI Parameters". -/
structure ControllerConfig where
  numPhases : Nat
  minGreen : Nat
  maxGreen : Nat
deriving DecidableEq

/-- The default configuration from `AI_TRAFFIC_CONTROL_SYSTEM.md`:
minimum phase time 10 seconds, maximum phase time 60 seconds. -/
def defaultConfig (numPhases : Nat) : ControllerConfig :=
  ⟨numPhases, 10, 60⟩

/-- Modelled from the spec: per-approach metrics; `queuePressure` is
queue length normalised by approach capacity (spec section 4.3). -/
structure ApproachMetrics where
  queueLength : ℚ
  capacity : ℚ
deriving DecidableEq

/-- Queue pressure of one approach: queue length divided by capacity. -/
def queuePressure (a : ApproachMetrics) : ℚ :=
  a.queueLength / a.capacity

/-- Combined queue pressure of a set of approaches. -/
def combinedPressure (approaches : List ApproachMetrics) : ℚ :=
  (approaches.map queuePressure).sum

/-- Modelled from the spec: the per-tick `TrafficStateSnapshot`
restricted to one intersection, split into the approaches of the
currently-green phase and the others (spec section 3). -/
structure Snapshot where
  tick : Nat
  greenApproaches : List ApproachMetrics
  nonGreenApproaches : List ApproachMetrics
deriving DecidableEq

/-- Modelled from the spec: `SignalController` state: active phase
index, elapsed time in the active phase, and the last tick observed
(spec section 3, "SignalController state"). -/
structure ControllerState where
  activePhase : Nat
  elapsed : Nat
  lastTick : Nat
deriving DecidableEq

/-- The next phase in the cycle. -/
def nextPhase (cfg : ControllerConfig) (st : ControllerState) : Nat :=
  (st.activePhase + 1) % cfg.numPhases

/-- Modelled from the spec: `observe` updates elapsed-time
bookkeeping from a snapshot; a snapshot for a tick that was already
observed leaves the state unchanged, so observing twice in the same
tick does not double-advance elapsed time (spec sections 4.1 and 8). -/
def observe (st : ControllerState) (snap : Snapshot) : ControllerState :=
  if snap.tick = st.lastTick then st
  else { st with elapsed := st.elapsed + (snap.tick - st.lastTick),
                 lastTick := snap.tick }

/-- Modelled from the spec: the clamp step of `decide`: if elapsed
time has reached maximum green, any input is overridden to
`SwitchToPhase(next in cycle)`; a proposed switch before minimum green
is downgraded to `HoldPhase` (spec section 4.1). -/
def clampAction (cfg : ControllerConfig) (st : ControllerState)
    (proposed : Action) : Action :=
  if cfg.maxGreen ≤ st.elapsed then .switchToPhase (nextPhase cfg st)
  else
    match proposed with
    | .switchToPhase p =>
        if cfg.minGreen ≤ st.elapsed then .switchToPhase p else .holdPhase
    | a => a

/-- Modelled from the spec: `apply` commits a validated action to the
controller state; a phase switch is only committed once minimum green
has elapsed, and committing resets elapsed time to zero
(spec sections 4.1 and 8). -/
def applyAction (cfg : ControllerConfig) (st : ControllerState)
    (a : Action) : ControllerState :=
  match a with
  | .switchToPhase p =>
      if cfg.minGreen ≤ st.elapsed then
        { st with activePhase := p, elapsed := 0 }
      else st
  | _ => st

/-- Modelled from the spec: the default `DecisionPolicy` heuristic
(spec section 4.3): switch when the non-green approaches' combined
queue pressure exceeds the green approaches' by `switchRatio`
(default 1.5) and minimum green has elapsed; else extend green by 5 s
when green pressure is above `extendThreshold` (default 0.7) and
maximum green has not been reached; else hold. -/
structure PolicyConfig where
  switchRatio : ℚ
  extendThreshold : ℚ
deriving DecidableEq

/-- The default thresholds: ratio 1.5, green-pressure threshold 0.7. -/
def defaultPolicyConfig : PolicyConfig :=
  ⟨3 / 2, 7 / 10⟩

/-- Modelled from the spec: the default heuristic `DecisionPolicy`
(spec section 4.3). -/
def defaultPolicy (pc : PolicyConfig) (cfg : ControllerConfig)
    (st : ControllerState) (snap : Snapshot) : Action :=
  let greenP := combinedPressure snap.greenApproaches
  let nonGreenP := combinedPressure snap.nonGreenApproaches
  if pc.switchRatio * greenP < nonGreenP ∧ cfg.minGreen ≤ st.elapsed then
    .switchToPhase (nextPhase cfg st)
  else if pc.extendThreshold < greenP ∧ st.elapsed < cfg.maxGreen then
    .extendGreen 5
  else .holdPhase

/-- One controller tick: observe the snapshot, ask the policy, clamp,
apply; returns the emitted (clamped) action and the new state. -/
def runStep (cfg : ControllerConfig)
    (policy : ControllerState → Snapshot → Action)
    (st : ControllerState) (snap : Snapshot) : Action × ControllerState :=
  let st1 := observe st snap
  let a := clampAction cfg st1 (policy st1 snap)
  (a, applyAction cfg st1 a)

/-- Run the controller over a snapshot stream, collecting for each
tick the emitted action. -/
def runTrace (cfg : ControllerConfig)
    (policy : ControllerState → Snapshot → Action)
    (st : ControllerState) : List Snapshot → List (Nat × Action)
  | [] => []
  | snap :: rest =>
      let r := runStep cfg policy st snap
      (snap.tick, r.1) :: runTrace cfg policy r.2 rest

/-- The phase sequence produced by a run (active phase after each tick). -/
def phaseTrace (cfg : ControllerConfig)
    (policy : ControllerState → Snapshot → Action)
    (st : ControllerState) : List Snapshot → List Nat
  | [] => []
  | snap :: rest =>
      let r := runStep cfg policy st snap
      r.2.activePhase :: phaseTrace cfg policy r.2 rest

/-- Whether an action is a phase switch. -/
def Action.isSwitch : Action → Bool
  | .switchToPhase _ => true
  | _ => false

/-- The tick of the first emitted `SwitchToPhase` in a trace, if any. -/
def firstSwitchTick (trace : List (Nat × Action)) : Option Nat :=
  match trace.find? (fun p => p.2.isSwitch) with
  | some p => some p.1
  | none => none

/-- The minimum-green invariant along a run: at every tick, if `apply`
commits a phase change then the controller's elapsed time at that
moment was at least the configured minimum green. -/
def noPrematureSwitch (cfg : ControllerConfig)
    (policy : ControllerState → Snapshot → Action) :
    ControllerState → List Snapshot → Prop
  | _, [] => True
  | st, snap :: rest =>
      let st1 := observe st snap
      let a := clampAction cfg st1 (policy st1 snap)
      let st2 := applyAction cfg st1 a
      ((st2.activePhase ≠ st1.activePhase → cfg.minGreen ≤ st1.elapsed) ∧
        noPrematureSwitch cfg policy st2 rest)

/-- The initial controller state: phase 0, green, nothing elapsed. -/
def initialState : ControllerState := ⟨0, 0, 0⟩

/-- A stub policy that always proposes `HoldPhase`, used by the
starvation-prevention override test. -/
def stubHoldPolicy : ControllerState → Snapshot → Action :=
  fun _ _ => .holdPhase

/-- Scenario A snapshot at tick `t` (1 tick = 1 s): the green approach
queue stays at 2 while the non-green queue grows linearly from 0 to 20
over 15 ticks; all capacities 1. -/
def scenarioASnap (t : Nat) : Snapshot :=
  ⟨t, [⟨2, 1⟩], [⟨(20 * t) / 15, 1⟩]⟩

/-- The Scenario A snapshot stream: ticks 1 through 15. -/
def scenarioASnaps : List Snapshot :=
  (List.range 15).map (fun k => scenarioASnap (k + 1))

/-- The Scenario A action trace: a single intersection with 2 phases,
minimum green 10 s, maximum green 60 s, default heuristic thresholds. -/
def scenarioATrace : List (Nat × Action) :=
  runTrace (defaultConfig 2)
    (defaultPolicy defaultPolicyConfig (defaultConfig 2))
    initialState scenarioASnaps

/-- Scenario B snapshot at tick `t`: all queues constantly 0. -/
def scenarioBSnap (t : Nat) : Snapshot :=
  ⟨t, [⟨0, 1⟩], [⟨0, 1⟩]⟩

/-- The Scenario B snapshot stream: ticks 1 through 70. -/
def scenarioBSnaps : List Snapshot :=
  (List.range 70).map (fun k => scenarioBSnap (k + 1))

/-- The Scenario B action trace: 2 phases, minimum green 10 s, maximum
green 60 s, driven by the always-hold stub policy. -/
def scenarioBTrace : List (Nat × Action) :=
  runTrace (defaultConfig 2) stubHoldPolicy initialState scenarioBSnaps

/-- Helper: a committed phase change in `applyAction` requires that
minimum green had elapsed. -/
theorem applyAction_phase_change {cfg : ControllerConfig}
    {st : ControllerState} {a : Action}
    (h : (applyAction cfg st a).activePhase ≠ st.activePhase) :
    cfg.minGreen ≤ st.elapsed := by
  cases a with
  | switchToPhase p =>
      by_cases hg : cfg.minGreen ≤ st.elapsed
      · exact hg
      · simp [applyAction, hg] at h
  | holdPhase => simp [applyAction] at h
  | extendGreen s => simp [applyAction] at h
  | coordinateOffset i s => simp [applyAction] at h

/-- C1: for every controller configuration, every (arbitrary,
including adversarial) decision policy, every starting state and every
snapshot stream, no tick of the run commits a phase switch while the
elapsed time in the active phase is strictly below the configured
minimum green: the `noPrematureSwitch` invariant holds along the whole
run because `clampAction`/`applyAction` downgrade any premature
switch. -/
theorem c1_no_premature_switch (cfg : ControllerConfig)
    (policy : ControllerState → Snapshot → Action)
    (st : ControllerState) (snaps : List Snapshot) :
    noPrematureSwitch cfg policy st snaps := by
  induction snaps generalizing st with
  | nil => trivial
  | cons snap rest ih =>
      exact ⟨fun h => applyAction_phase_change h, ih _⟩

/-- C1 witness: the invariant holds on the concrete Scenario B run. -/
theorem c1_no_premature_switch_witness :
    noPrematureSwitch (defaultConfig 2) stubHoldPolicy initialState
      scenarioBSnaps :=
  c1_no_premature_switch (defaultConfig 2) stubHoldPolicy initialState
    scenarioBSnaps

/-- C2: once elapsed time in the active phase has reached the
configured maximum green, the clamped decision is
`SwitchToPhase(next in cycle)` no matter what action the policy
proposed; and in Scenario B (2 phases, minimum green 10 s, maximum
green 60 s, queues constantly 0, stub policy that always holds) the
forced switch is emitted exactly at tick 60. -/
theorem c2_max_green_forces_switch :
    (∀ (cfg : ControllerConfig) (st : ControllerState) (a : Action),
      cfg.maxGreen ≤ st.elapsed →
        clampAction cfg st a = .switchToPhase (nextPhase cfg st)) ∧
    firstSwitchTick scenarioBTrace = some 60 := by
  constructor
  · intro cfg st a h
    simp [clampAction, h]
  · decide

/-- C2 witness: a concrete controller at maximum green whose clamped
decision for a proposed hold is the switch to the next phase. -/
theorem c2_max_green_forces_switch_witness :
    clampAction (defaultConfig 2) ⟨0, 60, 60⟩ Action.holdPhase =
      Action.switchToPhase 1 := by
  have h := c2_max_green_forces_switch.1 (defaultConfig 2) ⟨0, 60, 60⟩
    Action.holdPhase (by decide)
  simpa [nextPhase, defaultConfig] using h

/-- C3: the default heuristic policy emits `SwitchToPhase(next)`
exactly when the non-green approaches' combined queue pressure exceeds
the green approaches' scaled by the configured ratio and minimum green
has elapsed; and in Scenario A (2 phases, minimum green 10 s, maximum
green 60 s, default thresholds, non-green queue growing linearly from
0 to 20 over 15 one-second ticks with the green approach at 2) the
first `SwitchToPhase` is emitted exactly at tick 10. -/
theorem c3_default_policy_switch :
    (∀ (pc : PolicyConfig) (cfg : ControllerConfig)
        (st : ControllerState) (snap : Snapshot),
      (defaultPolicy pc cfg st snap = .switchToPhase (nextPhase cfg st) ↔
        (pc.switchRatio * combinedPressure snap.greenApproaches <
            combinedPressure snap.nonGreenApproaches ∧
          cfg.minGreen ≤ st.elapsed))) ∧
    firstSwitchTick scenarioATrace = some 10 := by
  constructor
  · intro pc cfg st snap
    by_cases h1 : pc.switchRatio * combinedPressure snap.greenApproaches <
        combinedPressure snap.nonGreenApproaches ∧ cfg.minGreen ≤ st.elapsed
    · simp [defaultPolicy, h1]
    · by_cases h2 : pc.extendThreshold < combinedPressure snap.greenApproaches ∧
          st.elapsed < cfg.maxGreen
      · simp [defaultPolicy, h1, h2]
      · simp [defaultPolicy, h1, h2]
  · norm_num [scenarioATrace, scenarioASnaps, scenarioASnap, runTrace, runStep,
      observe, clampAction, applyAction, defaultPolicy, defaultPolicyConfig,
      defaultConfig, initialState, combinedPressure, queuePressure, nextPhase,
      firstSwitchTick, List.range_succ, Action.isSwitch, List.find?]

/-- C3 witness: at tick 10 of Scenario A (elapsed 10, non-green
pressure 40/3 against green pressure 2 scaled by 3/2) the default
policy emits the switch to phase 1. -/
theorem c3_default_policy_switch_witness :
    defaultPolicy defaultPolicyConfig (defaultConfig 2) ⟨0, 10, 10⟩
      (scenarioASnap 10) = Action.switchToPhase 1 := by
  have h := (c3_default_policy_switch.1 defaultPolicyConfig
    (defaultConfig 2) ⟨0, 10, 10⟩ (scenarioASnap 10)).mpr
    ⟨by norm_num [combinedPressure, queuePressure, scenarioASnap,
        defaultPolicyConfig, defaultConfig],
      by decide⟩
  simpa [nextPhase, defaultConfig] using h

/-- C5: `observe` is idempotent within a tick: observing the same
snapshot twice yields the same state (the same elapsed time) as
observing it once. -/
theorem c5_observe_idempotent (st : ControllerState) (snap : Snapshot) :
    observe (observe st snap) snap = observe st snap := by
  by_cases h : snap.tick = st.lastTick <;> simp [observe, h]

/-- C5 witness: observing the first Scenario B snapshot twice from the
initial state equals observing it once. -/
theorem c5_observe_idempotent_witness :
    observe (observe initialState (scenarioBSnap 1)) (scenarioBSnap 1) =
      observe initialState (scenarioBSnap 1) :=
  c5_observe_idempotent initialState (scenarioBSnap 1)

/-- C6: the control loop is deterministic: with a fixed configuration,
a fixed deterministic policy and a fixed starting state, two runs over
equal snapshot sequences produce identical phase sequences. -/
theorem c6_deterministic (cfg : ControllerConfig)
    (policy : ControllerState → Snapshot → Action)
    (st : ControllerState) (snaps1 snaps2 : List Snapshot)
    (h : snaps1 = snaps2) :
    phaseTrace cfg policy st snaps1 = phaseTrace cfg policy st snaps2 := by
  rw [h]

/-- C6 witness: two runs of the Scenario B snapshot stream with the
stub policy produce the same phase sequence. -/
theorem c6_deterministic_witness :
    phaseTrace (defaultConfig 2) stubHoldPolicy initialState scenarioBSnaps =
      phaseTrace (defaultConfig 2) stubHoldPolicy initialState scenarioBSnaps :=
  c6_deterministic (defaultConfig 2) stubHoldPolicy initialState
    scenarioBSnaps scenarioBSnaps rfl

/-- Modelled from the spec: the outcome of one intersection's tick
within a coordination cycle: either the tick was executed and recorded
by the MetricsAggregator, or the phase write failed twice and an
`ActuationFailure` was surfaced to the caller (spec sections 4.1 and
7); the implementation is missing from the repository sources. -/
inductive TickResult where
  | recorded : TickResult
  | actuationFailure : TickResult
deriving DecidableEq

/-- Modelled from the spec: `apply`'s write path: on write failure it
retries once, then surfaces `ActuationFailure` without crashing the
loop (spec section 4.1).  `writeOk id attempt` says whether the given
attempt (0 = first try, 1 = the single retry) succeeds. -/
def writeWithRetry (writeOk : Nat → Nat → Bool) (id : Nat) : TickResult :=
  if writeOk id 0 then .recorded
  else if writeOk id 1 then .recorded
  else .actuationFailure

/-- The number of write attempts `writeWithRetry` makes for an
intersection: one on success, two (the original plus one retry) when
the first write fails. -/
def attemptsUsed (writeOk : Nat → Nat → Bool) (id : Nat) : Nat :=
  if writeOk id 0 then 1 else 2

/-- Modelled from the spec: one coordination cycle of the
`CoordinationScheduler` ticks every registered intersection in
deterministic order; a failed actuation is surfaced in the per-
intersection result and never halts the loop (spec sections 4.2 and
7, Scenario D). -/
def coordinationCycle (writeOk : Nat → Nat → Bool) (ids : List Nat) :
    List (Nat × TickResult) :=
  ids.map (fun i => (i, writeWithRetry writeOk i))

/-- The intersections whose tick the MetricsAggregator recorded during
a cycle. -/
def recordedIds (results : List (Nat × TickResult)) : List Nat :=
  (results.filter (fun p => p.2 == TickResult.recorded)).map (fun p => p.1)

/-- C4: an actuation failure on one intersection's write is surfaced
after exactly one retry (two attempts) in that intersection's cycle
entry, the cycle still produces an entry for every registered
intersection (the loop is not halted), and every intersection whose
write succeeds has its tick recorded by the MetricsAggregator in the
same cycle. -/
theorem c4_actuation_failure_isolated :
    (∀ (writeOk : Nat → Nat → Bool) (ids : List Nat) (i : Nat),
      i ∈ ids → writeOk i 0 = false → writeOk i 1 = false →
        (i, TickResult.actuationFailure) ∈ coordinationCycle writeOk ids ∧
          attemptsUsed writeOk i = 2) ∧
    (∀ (writeOk : Nat → Nat → Bool) (ids : List Nat),
      (coordinationCycle writeOk ids).length = ids.length) ∧
    (∀ (writeOk : Nat → Nat → Bool) (ids : List Nat) (j : Nat),
      j ∈ ids → writeOk j 0 = true →
        j ∈ recordedIds (coordinationCycle writeOk ids)) := by
  refine ⟨?_, ?_, ?_⟩
  · intro writeOk ids i hi h0 h1
    constructor
    · have hm := List.mem_map_of_mem
        (fun i => (i, writeWithRetry writeOk i)) hi
      simpa [coordinationCycle, writeWithRetry, h0, h1] using hm
    · simp [attemptsUsed, h0]
  · intro writeOk ids
    simp [coordinationCycle]
  · intro writeOk ids j hj hw
    have hm : (j, TickResult.recorded) ∈ coordinationCycle writeOk ids := by
      have hmm := List.mem_map_of_mem
        (fun i => (i, writeWithRetry writeOk i)) hj
      simpa [coordinationCycle, writeWithRetry, hw] using hmm
    refine List.mem_map.mpr ⟨(j, TickResult.recorded), ?_, rfl⟩
    exact List.mem_filter.mpr ⟨hm, by simp⟩

/-- C4 witness: with intersections 0, 1, 2 registered and only
intersection 1's writes failing, intersection 1's failure is surfaced
after two attempts while intersections 0 and 2 are still recorded. -/
theorem c4_actuation_failure_isolated_witness :
    ((1, TickResult.actuationFailure) ∈
        coordinationCycle (fun j _ => j != 1) [0, 1, 2] ∧
      attemptsUsed (fun j _ => j != 1) 1 = 2) ∧
    0 ∈ recordedIds (coordinationCycle (fun j _ => j != 1) [0, 1, 2]) ∧
    2 ∈ recordedIds (coordinationCycle (fun j _ => j != 1) [0, 1, 2]) :=
  ⟨c4_actuation_failure_isolated.1 (fun j _ => j != 1) [0, 1, 2] 1
      (by decide) rfl rfl,
    c4_actuation_failure_isolated.2.2 (fun j _ => j != 1) [0, 1, 2] 0
      (by decide) rfl,
    c4_actuation_failure_isolated.2.2 (fun j _ => j != 1) [0, 1, 2] 2
      (by decide) rfl⟩

/-- Modelled from the spec: the MetricsAggregator's efficiency score:
`1 - (average wait this episode / average wait under a fixed-timing
baseline)`, clamped to the interval [0, 1] (spec section 4.4); the
implementation is missing from the repository sources. -/
def efficiencyScore (avgWait baselineWait : ℚ) : ℚ :=
  max 0 (min 1 (1 - avgWait / baselineWait))

/-- C7: for every episode average wait and every positive fixed-timing
baseline, the efficiency score is `1 - avgWait / baseline` whenever
that value lies in [0, 1], saturates at 0 below and at 1 above, and is
always inside the closed interval [0, 1]. -/
theorem c7_efficiency_score_clamped (avgWait baselineWait : ℚ)
    (hb : 0 < baselineWait) :
    0 ≤ efficiencyScore avgWait baselineWait ∧
    efficiencyScore avgWait baselineWait ≤ 1 ∧
    (0 ≤ 1 - avgWait / baselineWait → 1 - avgWait / baselineWait ≤ 1 →
      efficiencyScore avgWait baselineWait = 1 - avgWait / baselineWait) ∧
    (1 - avgWait / baselineWait < 0 →
      efficiencyScore avgWait baselineWait = 0) ∧
    (1 < 1 - avgWait / baselineWait →
      efficiencyScore avgWait baselineWait = 1) := by
  refine ⟨le_max_left _ _, max_le (by norm_num) (min_le_left _ _), ?_, ?_, ?_⟩
  · intro h0 h1
    rw [efficiencyScore, min_eq_right h1, max_eq_right h0]
  · intro hneg
    rw [efficiencyScore, min_eq_right (le_of_lt (lt_of_lt_of_le hneg
      (by norm_num))), max_eq_left (le_of_lt hneg)]
  · intro hbig
    rw [efficiencyScore, min_eq_left (le_of_lt hbig)]
    norm_num

/-- C7 witness: with average wait 1 and baseline 2 the score is inside
[0, 1] and equals 1/2. -/
theorem c7_efficiency_score_clamped_witness :
    0 ≤ efficiencyScore 1 2 ∧ efficiencyScore 1 2 ≤ 1 ∧
      efficiencyScore 1 2 = 1 - (1 : ℚ) / 2 := by
  obtain ⟨h0, h1, heq, -, -⟩ :=
    c7_efficiency_score_clamped 1 2 (by norm_num)
  exact ⟨h0, h1, heq (by norm_num) (by norm_num)⟩

end Traffic

namespace Frontend

/-- The `liveSimulation` component state of
`frontend/src/pages/EnhancedTrafficSimulation.js` (lines 18-24): a
running flag, the video path, and three metric payloads, each `null`
until the first successful poll.  The payload type is abstract. -/
structure LiveSimState (α : Type) where
  isRunning : Bool
  videoPath : Option String
  metrics : Option α
  aiPerformance : Option α
  comparisonData : Option α

/-- The initial `liveSimulation` value of
`EnhancedTrafficSimulation.js` (lines 18-24): not running, all fields
null. -/
def initialLiveSim (α : Type) : LiveSimState α :=
  ⟨false, none, none, none, none⟩

/-- The JSON body returned by the live-metrics endpoint as consumed in
`startMetricsPolling` (`EnhancedTrafficSimulation.js` lines 126-135):
a `simulation_running` flag plus `metrics`, `ai_performance` and
`comparison_data` payloads. -/
structure LiveMetricsResponse (α : Type) where
  simulation_running : Bool
  metrics : Option α
  ai_performance : Option α
  comparison_data : Option α

/-- The polling interval in milliseconds passed to `setInterval` in
`startMetricsPolling` (`EnhancedTrafficSimulation.js` line 140). -/
def metricsPollIntervalMs : Nat := 2000

/-- One execution of the polling callback of `startMetricsPolling`
(`EnhancedTrafficSimulation.js` lines 124-139): the `liveSimulation`
state absorbs the response payloads only when the response reports
`simulation_running` as true; otherwise it is left unchanged. -/
def handleMetricsPoll {α : Type} (st : LiveSimState α)
    (resp : LiveMetricsResponse α) : LiveSimState α :=
  if resp.simulation_running then
    { st with metrics := resp.metrics,
              aiPerformance := resp.ai_performance,
              comparisonData := resp.comparison_data }
  else st

/-- C8: the interval passed to `setInterval` by `startMetricsPolling`
is exactly 2000 ms, and a poll response updates the displayed metrics
only when it reports `simulation_running` as true: a response with the
flag false leaves the state untouched, while a response with the flag
true installs exactly the response's payloads (and never toggles the
running flag or the video path). -/
theorem c8_metrics_polling :
    metricsPollIntervalMs = 2000 ∧
    (∀ (α : Type) (st : LiveSimState α) (resp : LiveMetricsResponse α),
      resp.simulation_running = false → handleMetricsPoll st resp = st) ∧
    (∀ (α : Type) (st : LiveSimState α) (resp : LiveMetricsResponse α),
      resp.simulation_running = true →
        (handleMetricsPoll st resp).metrics = resp.metrics ∧
        (handleMetricsPoll st resp).aiPerformance = resp.ai_performance ∧
        (handleMetricsPoll st resp).comparisonData = resp.comparison_data ∧
        (handleMetricsPoll st resp).isRunning = st.isRunning ∧
        (handleMetricsPoll st resp).videoPath = st.videoPath) := by
  refine ⟨rfl, ?_, ?_⟩
  · intro α st resp h
    simp [handleMetricsPoll, h]
  · intro α st resp h
    simp [handleMetricsPoll, h]

/-- C8 witness: a concrete not-running response leaves a concrete
state untouched, and a running response installs its payload. -/
theorem c8_metrics_polling_witness :
    handleMetricsPoll (initialLiveSim Nat) ⟨false, some 7, none, none⟩ =
        initialLiveSim Nat ∧
      (handleMetricsPoll (initialLiveSim Nat)
          ⟨true, some 7, none, none⟩).metrics = some 7 :=
  ⟨c8_metrics_polling.2.1 Nat (initialLiveSim Nat)
      ⟨false, some 7, none, none⟩ rfl,
    (c8_metrics_polling.2.2 Nat (initialLiveSim Nat)
      ⟨true, some 7, none, none⟩ rfl).1⟩

/-- The four directions rendered by
`frontend/src/components/TrafficLightDisplay.js` (line 5). -/
inductive Direction where
  | north
  | south
  | east
  | west
deriving DecidableEq

/-- The three lamp colours rendered per direction by
`TrafficLightDisplay.js` (lines 15-44), in render order. -/
def lampColors : List String := ["red", "yellow", "green"]

/-- The CSS class of one lamp in `TrafficLightDisplay.js`: the lamp
for colour `c` renders lit (class `c`) exactly when
`lights[direction] === c`, and as class `off` otherwise (lines 16, 26
and 36); a missing direction (JavaScript `undefined`) is modelled as
`none`. -/
def lampClass (lights : Direction → Option String) (d : Direction)
    (c : String) : String :=
  if lights d = some c then c else "off"

/-- The colours of the lamps of one direction that render lit. -/
def litLampColors (lights : Direction → Option String) (d : Direction) :
    List String :=
  lampColors.filter (fun c => lights d == some c)

/-- C9: for every lights mapping and every rendered direction, at most
one of the direction's three lamps renders lit; a lamp's colour is lit
exactly when it equals the direction's assigned value, and any other
value of `lights[direction]` (including a missing direction) leaves
all three lamps off. -/
theorem c9_at_most_one_lamp_lit (lights : Direction → Option String)
    (d : Direction) :
    (litLampColors lights d).length ≤ 1 ∧
    (∀ c : String,
      (c ∈ litLampColors lights d ↔ c ∈ lampColors ∧ lights d = some c)) ∧
    (∀ c : String, c ∈ lampColors →
      (lampClass lights d c = c ↔ lights d = some c) ∧
      (lights d ≠ some c → lampClass lights d c = "off")) := by
  refine ⟨?_, ?_, ?_⟩
  · cases h : lights d with
    | none => simp [litLampColors, lampColors, h]
    | some s =>
        by_cases h1 : s = "red" <;> by_cases h2 : s = "yellow" <;>
          by_cases h3 : s = "green" <;>
          simp_all [litLampColors, lampColors, h]
  · intro c
    simp [litLampColors, List.mem_filter]
  · intro c hc
    constructor
    · constructor
      · intro hlit
        by_cases h : lights d = some c
        · exact h
        · rw [lampClass, if_neg h] at hlit
          subst hlit
          simp [lampColors] at hc
      · intro h
        simp [lampClass, h]
    · intro h
      simp [lampClass, h]

/-- C9 witness: with every direction assigned green, the north column
has at most one lit lamp and its red lamp renders off. -/
theorem c9_at_most_one_lamp_lit_witness :
    (litLampColors (fun _ => some ("green")) Direction.north).length ≤ 1 ∧
      lampClass (fun _ => some ("green")) Direction.north ("red") = "off" := by
  have h := c9_at_most_one_lamp_lit (fun _ => some ("green")) Direction.north
  exact ⟨h.1, (h.2.2 ("red") (by decide)).2 (by decide)⟩

/-- The uploaded-video record kept by `EnhancedTrafficSimulation.js`
(lines 65-69); the browser `File` object is abstracted away. -/
structure UploadedVideo where
  filename : String
  filepath : String

/-- The component state of `EnhancedTrafficSimulation.js` relevant to
starting and stopping the live simulation: the uploaded video, the
status message, the start-in-progress flag, the `liveSimulation`
record and whether the metrics-polling interval is installed
(`metricsIntervalRef.current` non-null). -/
structure PageState (α : Type) where
  uploadedVideo : Option UploadedVideo
  uploadStatus : String
  isStartingSimulation : Bool
  liveSim : LiveSimState α
  pollingActive : Bool

/-- The synchronous prefix of `startLiveSimulation`
(`EnhancedTrafficSimulation.js` lines 81-88): with no uploaded video
it sets the status message to `Please upload a video first` and
returns before any network request is sent (the returned flag records
whether the request is issued); with a video present it marks the
start as in progress and proceeds to the request. -/
def startLiveSimulationGuard {α : Type} (st : PageState α) :
    PageState α × Bool :=
  match st.uploadedVideo with
  | none => ({ st with uploadStatus := "Please upload a video first" }, false)
  | some _ =>
      ({ st with isStartingSimulation := true,
                 uploadStatus := "Starting live simulation..." }, true)

/-- `stopLiveSimulation` (`EnhancedTrafficSimulation.js` lines
143-158): resets `liveSimulation` to the initial all-null not-running
value, clears the metrics-polling interval, and sets the status
message. -/
def stopLiveSimulation {α : Type} (st : PageState α) : PageState α :=
  { st with liveSim := initialLiveSim α,
            pollingActive := false,
            uploadStatus := "Live simulation stopped" }

/-- C10: when no video has been uploaded, `startLiveSimulation` only
sets the status message: no request is sent, the `liveSimulation`
record and the polling flag are unchanged (so `isRunning` stays as it
was, in particular false); and `stopLiveSimulation` always clears the
metrics-polling interval and resets `liveSimulation` to the initial
not-running all-null value. -/
theorem c10_start_guard_and_stop_reset :
    (∀ (α : Type) (st : PageState α), st.uploadedVideo = none →
      (startLiveSimulationGuard st).2 = false ∧
      (startLiveSimulationGuard st).1.liveSim = st.liveSim ∧
      (startLiveSimulationGuard st).1.pollingActive = st.pollingActive ∧
      (startLiveSimulationGuard st).1.isStartingSimulation =
        st.isStartingSimulation ∧
      (startLiveSimulationGuard st).1.uploadStatus =
        "Please upload a video first") ∧
    (∀ (α : Type) (st : PageState α),
      (stopLiveSimulation st).liveSim = initialLiveSim α ∧
      (stopLiveSimulation st).pollingActive = false ∧
      ((stopLiveSimulation st).liveSim).isRunning = false) := by
  constructor
  · intro α st h
    simp [startLiveSimulationGuard, h]
  · intro α st
    simp [stopLiveSimulation, initialLiveSim]

/-- C10 witness: a concrete state with no uploaded video is left with
its live simulation untouched and no request sent, and stopping resets
the live simulation. -/
theorem c10_start_guard_and_stop_reset_witness :
    ((startLiveSimulationGuard
        (⟨none, "", false, initialLiveSim Nat, false⟩ : PageState Nat)).2 =
      false ∧
      (startLiveSimulationGuard
        (⟨none, "", false, initialLiveSim Nat, false⟩ : PageState Nat)).1.liveSim =
        initialLiveSim Nat) ∧
    (stopLiveSimulation
        (⟨none, "", false, initialLiveSim Nat, true⟩ : PageState Nat)).pollingActive =
      false := by
  have hstart := c10_start_guard_and_stop_reset.1 Nat
    ⟨none, "", false, initialLiveSim Nat, false⟩ rfl
  have hstop := c10_start_guard_and_stop_reset.2 Nat
    (⟨none, "", false, initialLiveSim Nat, true⟩ : PageState Nat)
  exact ⟨⟨hstart.1, hstart.2.1⟩, hstop.2.1⟩

end Frontend
